import Mathlib

/-!
Verification of the footballistika-web prediction-game engine.

Shallow embedding of `storage.py`, `app.py`, `bot.py`,
`migrations/versions/0001_initial.py` and `tools/import_from_txt.py`.
Python integers are modelled as `Int` (scores and ids are small, no
overflow is involved), nullable columns as `Option`, Python float
arithmetic as `ℚ` (the accuracy formulas only ever divide small
integers), database tables as lists inside an explicit `Store` state,
and fallible operations as `Except String` where an error result means
the transaction was rolled back, leaving the store unchanged.
Timestamp columns (`created_at`, `updated_at`, `started_at`) are
omitted: no verified property mentions them.
-/

namespace FB

/-- The `points_rules` singleton row (`storage.PointsRule`). -/
structure PointsRule where
  exact_points : Int
  result_points : Int
deriving DecidableEq

/-- The default rules row `(id = 1, exact_points = 5, result_points = 1)`
inserted by `_get_rules` and by migration `0001_initial`. -/
def defaultRules : PointsRule := { exact_points := 5, result_points := 1 }

/-- A `matches` row (`storage.Match`). -/
structure Match where
  id : Int
  team1 : String
  team2 : String
  score1 : Option Int
  score2 : Option Int
  status : String
deriving DecidableEq

/-- A `users` row (`storage.User`). -/
structure User where
  id : Int
  username : Option String
deriving DecidableEq

/-- A `predictions` row (`storage.Prediction`); the primary key is the
pair `(user_id, match_id)`. -/
structure Prediction where
  user_id : Int
  match_id : Int
  pred_score1 : Int
  pred_score2 : Int
deriving DecidableEq

/-- The whole database state. -/
structure Store where
  rules : Option PointsRule
  matchRows : List Match
  users : List User
  predictions : List Prediction
deriving DecidableEq

/-- SQL `SIGN` on integers, as used by the `leaderboard` materialized
view of migration `0001_initial`. -/
def sign3 (x : Int) : Int :=
  if x > 0 then 1 else if x < 0 then -1 else 0

/-- The Python sign idiom `(a > b) - (a < b)` from
`storage._calculate_points`. -/
def pySign (a b : Int) : Int :=
  (if a > b then (1 : Int) else 0) - (if a < b then (1 : Int) else 0)

/-- `storage._calculate_points(rules, real1, real2, pred1, pred2)`. -/
def calculatePoints (rules : PointsRule) (real1 real2 pred1 pred2 : Int) : Int :=
  if real1 = pred1 ∧ real2 = pred2 then rules.exact_points
  else
    if real1 - real2 = pred1 - pred2 ∨ pySign real1 real2 = pySign pred1 pred2 then
      rules.result_points
    else 0

/-- Modelled from the spec (§4.1, §9): the simplified Score Comparator
that awards `result_points` on sign equality alone, which the spec
claims is extensionally equal to `_calculate_points`. -/
def calculatePointsSpec (rules : PointsRule) (real1 real2 pred1 pred2 : Int) : Int :=
  if real1 = pred1 ∧ real2 = pred2 then rules.exact_points
  else if pySign real1 real2 = pySign pred1 pred2 then rules.result_points
  else 0

/-- `storage._single_score_accuracy`, with the float arithmetic carried
out exactly in `ℚ`. -/
def singleScoreAccuracy (real predicted : Int) : ℚ :=
  if real = predicted then 1
  else if max real predicted = 0 then 1
  else max 0 (1 - ((|real - predicted| : Int) : ℚ) / ((max real predicted : Int) : ℚ))

/-- `storage._goal_accuracy_percent`. -/
def goalAccuracyPercent (real1 real2 pred1 pred2 : Int) : ℚ :=
  (singleScoreAccuracy real1 pred1 + singleScoreAccuracy real2 pred2) / 2 * 100

/-- A civil instant in the fixed Europe/Kyiv timezone: an ordinal
calendar day plus a wall-clock second of the day.  Both
`bot.is_prediction_window_open` and `app._is_prediction_window_open`
first convert `now` to this timezone and then work purely on the civil
calendar fields, so the gate is modelled on the converted values. -/
structure KyivTime where
  day : Nat
  secondsOfDay : Nat
deriving DecidableEq

/-- `now <= deadline` on civil datetimes of one fixed timezone:
calendar date first, then wall clock. -/
def ktLe (a b : KyivTime) : Prop :=
  a.day < b.day ∨ (a.day = b.day ∧ a.secondsOfDay ≤ b.secondsOfDay)

instance (a b : KyivTime) : Decidable (ktLe a b) := by
  unfold ktLe; infer_instance

/-- `PREDICTION_DEADLINE = time(17, 59)` as a second of the day. -/
def deadlineSeconds : Nat := 17 * 3600 + 59 * 60

/-- `bot.is_prediction_window_open` / `app._is_prediction_window_open`:
compare `now` against `datetime.combine(now.date(), PREDICTION_DEADLINE)`,
i.e. against the deadline wall clock on the same civil day. -/
def isPredictionWindowOpen (now : KyivTime) : Bool :=
  decide (ktLe now { day := now.day, secondsOfDay := deadlineSeconds })

/- ### Store operations (`storage.py`) -/

/-- `session.get(Match, match_id)`. -/
def findMatch (s : Store) (matchId : Int) : Option Match :=
  s.matchRows.find? (fun m => m.id == matchId)

/-- `storage._get_rules`: read the singleton rules row, inserting the
default `(5, 1)` row when it is absent. -/
def getRules (s : Store) : PointsRule × Store :=
  match s.rules with
  | some r => (r, s)
  | none => (defaultRules, { s with rules := some defaultRules })

/-- `storage._ensure_user`: insert the user, or refresh a changed,
non-empty username. -/
def ensureUser (s : Store) (userId : Int) (username : String) : Store :=
  match s.users.find? (fun u => u.id == userId) with
  | none => { s with users := s.users ++ [{ id := userId, username := some username }] }
  | some u =>
    if username ≠ "" ∧ u.username ≠ some username then
      { s with users := s.users.map fun v =>
          if v.id == userId then { v with username := some username } else v }
    else s

/-- `storage.append_prediction`.  At flush time the database rejects a
duplicate `(user_id, match_id)` primary key, a missing match row
(foreign key) and a negative score (check constraints
`pred_score1 >= 0`, `pred_score2 >= 0`) with `IntegrityError`; the code
catches it, rolls the whole transaction back (including the
`_ensure_user` side effect) and raises `ValueError("prediction_exists")`.
An `Except.error` result models the rolled-back transaction: the store
is unchanged.  There is no upper-bound check on the scores. -/
def appendPrediction (s : Store) (matchId userId : Int) (username : String)
    (score1 score2 : Int) : Except String Store :=
  if (∃ p ∈ (ensureUser s userId username).predictions,
        p.user_id = userId ∧ p.match_id = matchId)
      ∨ findMatch (ensureUser s userId username) matchId = none
      ∨ score1 < 0 ∨ score2 < 0 then
    .error "prediction_exists"
  else
    .ok { ensureUser s userId username with
          predictions := (ensureUser s userId username).predictions ++
            [{ user_id := userId, match_id := matchId,
               pred_score1 := score1, pred_score2 := score2 }] }

/-- `storage.get_user_prediction`. -/
def getUserPrediction (s : Store) (matchId userId : Int) : Option Prediction :=
  s.predictions.find? (fun p => p.user_id == userId && p.match_id == matchId)

/-- Autoincrement of the `matches` primary key: one more than the
largest id present. -/
def nextMatchId (s : Store) : Int :=
  (s.matchRows.map (fun m => m.id)).foldr max 0 + 1

/-- `storage.add_match`: a new row with status `scheduled` and both
scores null. -/
def addMatch (s : Store) (team1 team2 : String) : Store × Match :=
  ({ s with matchRows := s.matchRows ++
      [{ id := nextMatchId s, team1 := team1, team2 := team2,
         score1 := none, score2 := none, status := "scheduled" }] },
   { id := nextMatchId s, team1 := team1, team2 := team2,
     score1 := none, score2 := none, status := "scheduled" })

/-- The `chk_match_status` check constraint on `matches`. -/
def allowedStatus (st : String) : Prop :=
  st = "scheduled" ∨ st = "live" ∨ st = "finished"

instance (st : String) : Decidable (allowedStatus st) := by
  unfold allowedStatus; infer_instance

/-- `storage.upsert_match`.  A status outside the check constraint
violates `chk_match_status` at flush time (`IntegrityError`, transaction
rolled back); renaming the teams of a finished match raises
`ValueError` before the flush. -/
def upsertMatch (s : Store) (matchId : Int) (team1 team2 status : String)
    (score1 score2 : Option Int) : Except String (Store × Match) :=
  match findMatch s matchId with
  | none =>
    if allowedStatus status then
      .ok ({ s with matchRows := s.matchRows ++
              [{ id := matchId, team1 := team1, team2 := team2,
                 score1 := score1, score2 := score2, status := status }] },
           { id := matchId, team1 := team1, team2 := team2,
             score1 := score1, score2 := score2, status := status })
    else .error "chk_match_status"
  | some m0 =>
    if m0.status = "finished" ∧ (m0.team1 ≠ team1 ∨ m0.team2 ≠ team2) then
      .error "Cannot change teams of finished match"
    else if allowedStatus status then
      .ok ({ s with matchRows := s.matchRows.map fun mm =>
              if mm.id == matchId then
                { id := matchId, team1 := team1, team2 := team2,
                  score1 := score1, score2 := score2, status := status }
              else mm },
           { id := matchId, team1 := team1, team2 := team2,
             score1 := score1, score2 := score2, status := status })
    else .error "chk_match_status"

/-- `storage.update_match_result`: set both scores and move the match
to `finished`. -/
def updateMatchResult (s : Store) (matchId score1 score2 : Int) :
    Option (Store × Match) :=
  match findMatch s matchId with
  | none => none
  | some m0 =>
    some ({ s with matchRows := s.matchRows.map fun mm =>
              if mm.id == matchId then
                { m0 with score1 := some score1, score2 := some score2,
                          status := "finished" }
              else mm },
          { m0 with score1 := some score1, score2 := some score2,
                    status := "finished" })

/-- The award list built by `storage.settle_match_points`: for every
prediction on the match, the user id, the display name
(`user.username if user else ""`) and the recomputed points. -/
def settleAwards (s : Store) (rules : PointsRule) (matchId score1 score2 : Int) :
    List (Int × Option String × Int) :=
  (s.predictions.filter fun p => p.match_id == matchId).map fun p =>
    (p.user_id,
     (match s.users.find? (fun u => u.id == p.user_id) with
      | some u => u.username
      | none => some ""),
     calculatePoints rules score1 score2 p.pred_score1 p.pred_score2)

/-- `storage.settle_match_points`: read the rules (creating the default
row when absent), scan the match's predictions and return the award
list.  Nothing else is written. -/
def settleMatchPoints (s : Store) (matchId score1 score2 : Int) :
    Store × List (Int × Option String × Int) :=
  ((getRules s).2, settleAwards (getRules s).2 (getRules s).1 matchId score1 score2)

/- ### The leaderboard materialized view (`0001_initial.py`) -/

/-- One prediction's contribution in the `leaderboard` materialized
view: the SQL `CASE` over the joined match row, using SQL `SIGN`. -/
def leaderboardCase (rules : PointsRule) (m : Match) (p : Prediction) : Int :=
  match m.score1, m.score2 with
  | some a, some b =>
    if m.status = "finished" then
      if p.pred_score1 = a ∧ p.pred_score2 = b then rules.exact_points
      else if p.pred_score1 - p.pred_score2 = a - b
          ∨ sign3 (p.pred_score1 - p.pred_score2) = sign3 (a - b) then
        rules.result_points
      else 0
    else 0
  | _, _ => 0

/-- One prediction's contribution as seen through the view's join:
predictions whose match row is missing are dropped by the inner join,
i.e. contribute nothing. -/
def viewRow (s : Store) (rules : PointsRule) (p : Prediction) : Int :=
  match findMatch s p.match_id with
  | some m => leaderboardCase rules m p
  | none => 0

/-- One prediction's points recomputed with the Score Comparator
(`_calculate_points`) from the current match row, counting only
finished matches with both scores present. -/
def engineCase (rules : PointsRule) (m : Match) (p : Prediction) : Int :=
  match m.score1, m.score2 with
  | some a, some b =>
    if m.status = "finished" then
      calculatePoints rules a b p.pred_score1 p.pred_score2
    else 0
  | _, _ => 0

/-- `engineCase` through the join, like `viewRow`. -/
def engineRow (s : Store) (rules : PointsRule) (p : Prediction) : Int :=
  match findMatch s p.match_id with
  | some m => engineCase rules m p
  | none => 0

/-- A user's `points` in the `leaderboard` materialized view: the sum
of the `CASE` over the user's predictions.  When the rules row is
absent the view's CTE is empty and the user has no row, i.e. 0. -/
def leaderboardPoints (s : Store) (userId : Int) : Int :=
  match s.rules with
  | none => 0
  | some r =>
    ((s.predictions.filter fun p => p.user_id == userId).map (viewRow s r)).sum

/-- Modelled from the spec (§3, §4.4): the leaderboard total as the sum
of per-prediction point values recomputed from the current predictions,
matches and rules. -/
def recomputedPoints (s : Store) (rules : PointsRule) (userId : Int) : Int :=
  ((s.predictions.filter fun p => p.user_id == userId).map (engineRow s rules)).sum

/- ### The HTTP prediction endpoint (`app.py`) and the importer -/

/-- The JSON outcome of `app.webapp_prediction`: either the `ok`
payload echoing `(match_id, score1, score2)` or an error code. -/
inductive WebResult where
  | ok : Int → Int → Int → WebResult
  | err : String → WebResult
deriving DecidableEq

/-- `app.webapp_prediction` after a successful signature check and
integer payload parse: the guard chain over the store.  `now` is the
Kyiv-converted wall-clock instant the handler reads.  An exception from
`append_prediction` would propagate out of the handler; it is mapped to
an `err` value here (that branch is unreachable because of the
`"pending"` status guard). -/
def webappPrediction (s : Store) (now : KyivTime) (matchId score1 score2 userId : Int)
    (username : String) : Store × WebResult :=
  if ¬ (isPredictionWindowOpen now = true) then (s, .err "deadline_passed")
  else if ¬ (0 ≤ score1 ∧ score1 ≤ 99 ∧ 0 ≤ score2 ∧ score2 ≤ 99) then
    (s, .err "scores_out_of_range")
  else
    match findMatch s matchId with
    | none => (s, .err "match_not_available")
    | some m =>
      if m.status ≠ "pending" then (s, .err "match_not_available")
      else if (getUserPrediction s matchId userId).isSome = true then
        (s, .err "already_predicted")
      else
        match appendPrediction s matchId userId username score1 score2 with
        | .ok s1 => (s1, .ok matchId score1 score2)
        | .error e => (s, .err e)

/-- `tools/import_from_txt.parse_matches` status normalisation:
`status = "scheduled" if status_raw == "pending" else status_raw`,
applied to the already lower-cased `status_raw = parts[5].lower()`. -/
def importedStatus (statusRaw : String) : String :=
  if statusRaw = "pending" then "scheduled" else statusRaw

/- ### Invariants (§3 of the spec) -/

/-- The §3 match invariant: `status = finished ⇔ both scores non-null`. -/
def matchInv (m : Match) : Prop :=
  m.status = "finished" ↔ (m.score1 ≠ none ∧ m.score2 ≠ none)

instance (m : Match) : Decidable (matchInv m) := by
  unfold matchInv; infer_instance

/-- Every stored match satisfies `matchInv`. -/
def storeMatchInv (s : Store) : Prop :=
  ∀ m ∈ s.matchRows, matchInv m

instance (s : Store) : Decidable (storeMatchInv s) := by
  unfold storeMatchInv; infer_instance

/-- Every stored match has a status the `chk_match_status` constraint
allows.  This holds in every reachable store: `add_match` writes
`scheduled`, `update_match_result` writes `finished`, and `upsert_match`
cannot flush any other status. -/
def storeStatusInv (s : Store) : Prop :=
  ∀ m ∈ s.matchRows, allowedStatus m.status

instance (s : Store) : Decidable (storeStatusInv s) := by
  unfold storeStatusInv; infer_instance

/- ### Concrete stores used by the witnesses -/

/-- A scheduled match with id 3. -/
def sampleMatch : Match :=
  { id := 3, team1 := "A", team2 := "B", score1 := none, score2 := none,
    status := "scheduled" }

/-- A store holding only `sampleMatch`. -/
def sampleStore : Store :=
  { rules := none, matchRows := [sampleMatch], users := [], predictions := [] }

/-- `sampleStore` after user 7 predicts 1:2 on match 3. -/
def sampleStore2 : Store :=
  { rules := none, matchRows := [sampleMatch],
    users := [{ id := 7, username := some "bob" }],
    predictions := [{ user_id := 7, match_id := 3, pred_score1 := 1, pred_score2 := 2 }] }

/-- Match 3 finished 2:1. -/
def sampleFinishedMatch : Match :=
  { id := 3, team1 := "A", team2 := "B", score1 := some 2, score2 := some 1,
    status := "finished" }

/-- A store with the rules row present, a finished match and one
prediction. -/
def sampleRuledStore : Store :=
  { rules := some defaultRules, matchRows := [sampleFinishedMatch],
    users := [{ id := 7, username := some "bob" }],
    predictions := [{ user_id := 7, match_id := 3, pred_score1 := 3, pred_score2 := 2 }] }

/-- The match produced by `updateMatchResult sampleStore 3 2 1`. -/
def sampleUpdatedMatch : Match :=
  { id := 3, team1 := "A", team2 := "B", score1 := some 2, score2 := some 1,
    status := "finished" }

/-- The store produced by `updateMatchResult sampleStore 3 2 1`. -/
def sampleUpdatedStore : Store :=
  { rules := none, matchRows := [sampleUpdatedMatch], users := [], predictions := [] }

/- ### Helper lemmas on the comparator -/

theorem pySign_eq_sign3_sub (a b : Int) : pySign a b = sign3 (a - b) := by
  unfold pySign sign3
  split_ifs <;> omega

theorem calculatePoints_eq_cases (rules : PointsRule) (a b p q : Int) :
    calculatePoints rules a b p q =
      if p = a ∧ q = b then rules.exact_points
      else if sign3 (p - q) = sign3 (a - b) ∨ p - q = a - b then rules.result_points
      else 0 := by
  unfold calculatePoints
  refine if_congr (and_congr eq_comm eq_comm) rfl (if_congr ?_ rfl rfl)
  rw [pySign_eq_sign3_sub, pySign_eq_sign3_sub]
  constructor
  · rintro (h | h)
    · exact Or.inr h.symm
    · exact Or.inl h.symm
  · rintro (h | h)
    · exact Or.inr h.symm
    · exact Or.inl h.symm

/- ### Claims C1, C9, C6, C7 -/

/-- C1: for all non-negative integer scores, `_calculate_points` returns
`exact_points` on an exact score match; otherwise `result_points` when
the outcome signs agree or the goal differences agree; and `0` in every
remaining case. -/
theorem c1_score_comparator_cases (rules : PointsRule) (real1 real2 pred1 pred2 : Nat) :
    (((pred1 : Int) = (real1 : Int) ∧ (pred2 : Int) = (real2 : Int)) →
      calculatePoints rules real1 real2 pred1 pred2 = rules.exact_points)
    ∧ (¬ ((pred1 : Int) = (real1 : Int) ∧ (pred2 : Int) = (real2 : Int)) →
        (sign3 ((pred1 : Int) - (pred2 : Int)) = sign3 ((real1 : Int) - (real2 : Int))
          ∨ (pred1 : Int) - (pred2 : Int) = (real1 : Int) - (real2 : Int)) →
        calculatePoints rules real1 real2 pred1 pred2 = rules.result_points)
    ∧ (¬ ((pred1 : Int) = (real1 : Int) ∧ (pred2 : Int) = (real2 : Int)) →
        sign3 ((pred1 : Int) - (pred2 : Int)) ≠ sign3 ((real1 : Int) - (real2 : Int)) →
        (pred1 : Int) - (pred2 : Int) ≠ (real1 : Int) - (real2 : Int) →
        calculatePoints rules real1 real2 pred1 pred2 = 0) := by
  refine ⟨fun h => ?_, fun hne hc => ?_, fun hne h1 h2 => ?_⟩ <;>
    rw [calculatePoints_eq_cases]
  · exact if_pos h
  · rw [if_neg hne, if_pos hc]
  · rw [if_neg hne, if_neg (by tauto)]

/-- Witness for C1 at the concrete scorelines 2:1 (exact), real 3:1
versus predicted 2:1 (same outcome), and real 2:1 versus predicted 1:2
(different outcome and difference). -/
theorem c1_score_comparator_cases_witness :
    calculatePoints defaultRules ((2 : Nat) : Int) ((1 : Nat) : Int) ((2 : Nat) : Int) ((1 : Nat) : Int)
        = defaultRules.exact_points
    ∧ calculatePoints defaultRules ((3 : Nat) : Int) ((1 : Nat) : Int) ((2 : Nat) : Int) ((1 : Nat) : Int)
        = defaultRules.result_points
    ∧ calculatePoints defaultRules ((2 : Nat) : Int) ((1 : Nat) : Int) ((1 : Nat) : Int) ((2 : Nat) : Int)
        = 0 :=
  ⟨(c1_score_comparator_cases defaultRules 2 1 2 1).1 (by decide),
   (c1_score_comparator_cases defaultRules 3 1 2 1).2.1 (by decide) (by decide),
   (c1_score_comparator_cases defaultRules 2 1 1 2).2.2 (by decide) (by decide) (by decide)⟩

/-- C9: the implemented outcome-match condition (goal-difference
equality OR sign equality) is extensionally equal to the sign-equality
check alone, for all integer scores. -/
theorem c9_outcome_condition_refinement (rules : PointsRule) (real1 real2 pred1 pred2 : Int) :
    calculatePoints rules real1 real2 pred1 pred2
      = calculatePointsSpec rules real1 real2 pred1 pred2 := by
  unfold calculatePoints calculatePointsSpec
  refine if_congr Iff.rfl rfl (if_congr ?_ rfl rfl)
  constructor
  · rintro (h | h)
    · rw [pySign_eq_sign3_sub, pySign_eq_sign3_sub, h]
    · exact h
  · exact Or.inr

theorem singleScoreAccuracy_nonneg (real predicted : Int) :
    0 ≤ singleScoreAccuracy real predicted := by
  unfold singleScoreAccuracy
  split_ifs
  · norm_num
  · norm_num
  · exact le_max_left 0 _

theorem singleScoreAccuracy_le_one (real predicted : Int)
    (hr : 0 ≤ real) (_hp : 0 ≤ predicted) :
    singleScoreAccuracy real predicted ≤ 1 := by
  unfold singleScoreAccuracy
  split_ifs
  · norm_num
  · norm_num
  · refine max_le (by norm_num) ?_
    have hd : (0 : ℚ) ≤ ((|real - predicted| : Int) : ℚ) / ((max real predicted : Int) : ℚ) := by
      apply div_nonneg
      · exact_mod_cast abs_nonneg (real - predicted)
      · exact_mod_cast le_trans hr (le_max_left real predicted)
    linarith

/-- C6: per-side accuracy is `1` on an exact side, `1` in the degenerate
`max = 0` case, and `max 0 (1 - |real - predicted| / max real predicted)`
otherwise; the overall goal accuracy is the average of both sides times
100 and lies in `[0, 100]`; real 3:1 against predicted 2:1 gives side
accuracies `1 - 1/3` and `1` and overall exactly `250/3`. -/
theorem c6_goal_accuracy (real predicted real1 real2 pred1 pred2 : Int)
    (hr : 0 ≤ real) (hp : 0 ≤ predicted) (h1 : 0 ≤ real1) (h2 : 0 ≤ real2)
    (h3 : 0 ≤ pred1) (h4 : 0 ≤ pred2) :
    (real = predicted → singleScoreAccuracy real predicted = 1)
    ∧ (max real predicted = 0 → singleScoreAccuracy real predicted = 1)
    ∧ (real ≠ predicted →
        singleScoreAccuracy real predicted
          = max 0 (1 - ((|real - predicted| : Int) : ℚ) / ((max real predicted : Int) : ℚ)))
    ∧ 0 ≤ goalAccuracyPercent real1 real2 pred1 pred2
    ∧ goalAccuracyPercent real1 real2 pred1 pred2 ≤ 100
    ∧ singleScoreAccuracy 3 2 = 1 - 1/3
    ∧ singleScoreAccuracy 1 1 = 1
    ∧ goalAccuracyPercent 3 1 2 1 = 250 / 3 := by
  have a1 := singleScoreAccuracy_nonneg real1 pred1
  have a2 := singleScoreAccuracy_nonneg real2 pred2
  have b1 := singleScoreAccuracy_le_one real1 pred1 h1 h3
  have b2 := singleScoreAccuracy_le_one real2 pred2 h2 h4
  refine ⟨fun h => ?_, fun h => ?_, fun hne => ?_, ?_, ?_, ?_, ?_, ?_⟩
  · unfold singleScoreAccuracy
    rw [if_pos h]
  · unfold singleScoreAccuracy
    split_ifs <;> rfl
  · have hmax : ¬ max real predicted = 0 := by
      have hl := le_max_left real predicted
      have hr2 := le_max_right real predicted
      omega
    unfold singleScoreAccuracy
    rw [if_neg hne, if_neg hmax]
  · unfold goalAccuracyPercent
    linarith
  · unfold goalAccuracyPercent
    linarith
  · norm_num [singleScoreAccuracy]
  · norm_num [singleScoreAccuracy]
  · norm_num [goalAccuracyPercent, singleScoreAccuracy]

/-- Witness for C6 at the spec's concrete example, real 3:1 against
predicted 2:1. -/
theorem c6_goal_accuracy_witness :
    0 ≤ goalAccuracyPercent 3 1 2 1
    ∧ goalAccuracyPercent 3 1 2 1 ≤ 100
    ∧ goalAccuracyPercent 3 1 2 1 = 250 / 3 :=
  ⟨(c6_goal_accuracy 3 2 3 1 2 1 (by decide) (by decide) (by decide) (by decide)
      (by decide) (by decide)).2.2.2.1,
   (c6_goal_accuracy 3 2 3 1 2 1 (by decide) (by decide) (by decide) (by decide)
      (by decide) (by decide)).2.2.2.2.1,
   (c6_goal_accuracy 3 2 3 1 2 1 (by decide) (by decide) (by decide) (by decide)
      (by decide) (by decide)).2.2.2.2.2.2.2⟩

/-- C7: the Prediction Window Gate is a pure function of the given Kyiv
civil instant; on any day it is open at 17:58:59, closed at 17:59:01,
and open again the next day at 00:00:01. -/
theorem c7_window_gate (d : Nat) :
    isPredictionWindowOpen { day := d, secondsOfDay := 17 * 3600 + 58 * 60 + 59 } = true
    ∧ isPredictionWindowOpen { day := d, secondsOfDay := 17 * 3600 + 59 * 60 + 1 } = false
    ∧ isPredictionWindowOpen { day := d + 1, secondsOfDay := 0 * 3600 + 0 * 60 + 1 } = true := by
  unfold isPredictionWindowOpen ktLe deadlineSeconds
  refine ⟨?_, ?_, ?_⟩ <;> simp

/- ### Helper lemmas on the store operations -/

theorem getRules_idem (s : Store) : getRules (getRules s).2 = getRules s := by
  cases h : s.rules <;> simp [getRules, h]

theorem ensureUser_predictions (s : Store) (userId : Int) (username : String) :
    (ensureUser s userId username).predictions = s.predictions := by
  unfold ensureUser
  split
  · rfl
  · split
    · rfl
    · rfl

theorem ensureUser_matchRows (s : Store) (userId : Int) (username : String) :
    (ensureUser s userId username).matchRows = s.matchRows := by
  unfold ensureUser
  split
  · rfl
  · split
    · rfl
    · rfl

theorem findMatch_ensureUser (s : Store) (userId matchId : Int) (username : String) :
    findMatch (ensureUser s userId username) matchId = findMatch s matchId := by
  unfold findMatch
  rw [ensureUser_matchRows]

theorem leaderboardCase_eq_engineCase (rules : PointsRule) (m : Match) (p : Prediction) :
    leaderboardCase rules m p = engineCase rules m p := by
  unfold leaderboardCase engineCase
  cases m.score1 with
  | none => rfl
  | some a =>
    cases m.score2 with
    | none => rfl
    | some b =>
      show (if m.status = "finished" then
          (if p.pred_score1 = a ∧ p.pred_score2 = b then rules.exact_points
           else if p.pred_score1 - p.pred_score2 = a - b
               ∨ sign3 (p.pred_score1 - p.pred_score2) = sign3 (a - b) then
             rules.result_points
           else 0)
        else 0)
        = if m.status = "finished" then
            calculatePoints rules a b p.pred_score1 p.pred_score2
          else 0
      by_cases hst : m.status = "finished"
      · rw [if_pos hst, if_pos hst, calculatePoints_eq_cases]
        exact if_congr Iff.rfl rfl (if_congr or_comm rfl rfl)
      · rw [if_neg hst, if_neg hst]

theorem viewRow_eq_engineRow (s : Store) (rules : PointsRule) (p : Prediction) :
    viewRow s rules p = engineRow s rules p := by
  unfold viewRow engineRow
  cases findMatch s p.match_id with
  | none => rfl
  | some m => exact leaderboardCase_eq_engineCase rules m p

theorem appendPrediction_ok_elim (s s2 : Store) (matchId userId score1 score2 : Int)
    (un : String)
    (h : appendPrediction s matchId userId un score1 score2 = .ok s2) :
    s2.predictions
      = s.predictions ++ [{ user_id := userId, match_id := matchId,
                            pred_score1 := score1, pred_score2 := score2 }]
    ∧ ∀ p ∈ s.predictions, ¬ (p.user_id = userId ∧ p.match_id = matchId) := by
  unfold appendPrediction at h
  split at h
  · exact Except.noConfusion h
  · rename_i hcond
    rw [Except.ok.injEq] at h
    subst h
    constructor
    · show (ensureUser s userId un).predictions ++ _ = s.predictions ++ _
      rw [ensureUser_predictions]
    · intro p hp hpm
      exact hcond (Or.inl ⟨p, (ensureUser_predictions s userId un).symm ▸ hp, hpm⟩)

/- ### Claims C2, C10, C8, C3, C4, C5 -/

/-- C2: settlement is idempotent — running `settle_match_points` twice
with the same arguments produces exactly the same store and award list
as a single run — and, whenever the rules row is present, a user's
leaderboard total (the materialized view of `0001_initial`) equals the
sum of per-prediction point values recomputed from the current
predictions, matches and rules via the Score Comparator, never an
accumulated running total. -/
theorem c2_settlement_idempotent_and_derived (s : Store) (matchId score1 score2 userId : Int) :
    settleMatchPoints (settleMatchPoints s matchId score1 score2).1 matchId score1 score2
      = settleMatchPoints s matchId score1 score2
    ∧ (∀ rules : PointsRule, s.rules = some rules →
        leaderboardPoints s userId = recomputedPoints s rules userId) := by
  constructor
  · unfold settleMatchPoints
    rw [getRules_idem]
  · intro rules hr
    have h1 : leaderboardPoints s userId
        = ((s.predictions.filter fun p => p.user_id == userId).map (viewRow s rules)).sum := by
      unfold leaderboardPoints
      rw [hr]
    rw [h1]
    unfold recomputedPoints
    rw [List.map_congr_left fun p _ => viewRow_eq_engineRow s rules p]

/-- Witness for C2 on a concrete store with the rules row, one finished
match and one prediction. -/
theorem c2_settlement_idempotent_and_derived_witness :
    settleMatchPoints (settleMatchPoints sampleRuledStore 3 2 1).1 3 2 1
      = settleMatchPoints sampleRuledStore 3 2 1
    ∧ leaderboardPoints sampleRuledStore 7 = recomputedPoints sampleRuledStore defaultRules 7 :=
  ⟨(c2_settlement_idempotent_and_derived sampleRuledStore 3 2 1 7).1,
   (c2_settlement_idempotent_and_derived sampleRuledStore 3 2 1 7).2 defaultRules rfl⟩

/-- C10: when the points-rules singleton row already exists,
`settle_match_points` performs no writes — the store after the call is
identical to the store before it. -/
theorem c10_settle_frame (s : Store) (rules : PointsRule) (matchId score1 score2 : Int)
    (h : s.rules = some rules) :
    (settleMatchPoints s matchId score1 score2).1 = s := by
  unfold settleMatchPoints
  show (getRules s).2 = s
  unfold getRules
  rw [h]

/-- Witness for C10 on a concrete store whose rules row exists. -/
theorem c10_settle_frame_witness :
    (settleMatchPoints sampleRuledStore 3 2 1).1 = sampleRuledStore :=
  c10_settle_frame sampleRuledStore defaultRules 3 2 1 rfl

/-- C8: after a successful append for `(user_id, match_id)`, a second
append for the same pair fails with the duplicate-key error
(`ValueError("prediction_exists")`, the spec's `DuplicateKey`), exactly
one prediction persists for the pair, and the stored prediction still
carries the originally submitted scores.  The failed call is a rolled
back transaction, so it changes nothing. -/
theorem c8_duplicate_append (s s2 : Store) (matchId userId score1 score2 a2 b2 : Int)
    (un un2 : String)
    (h : appendPrediction s matchId userId un score1 score2 = .ok s2) :
    appendPrediction s2 matchId userId un2 a2 b2 = .error "prediction_exists"
    ∧ (s2.predictions.filter fun p => p.user_id == userId && p.match_id == matchId).length = 1
    ∧ getUserPrediction s2 matchId userId
        = some { user_id := userId, match_id := matchId,
                 pred_score1 := score1, pred_score2 := score2 } := by
  obtain ⟨hpreds, hno⟩ := appendPrediction_ok_elim s s2 matchId userId score1 score2 un h
  have hnoB : ∀ p ∈ s.predictions,
      ¬ (p.user_id == userId && p.match_id == matchId) = true := by
    intro p hp hb
    rw [Bool.and_eq_true, beq_iff_eq, beq_iff_eq] at hb
    exact hno p hp hb
  refine ⟨?_, ?_, ?_⟩
  · have hc : (∃ p ∈ (ensureUser s2 userId un2).predictions,
        p.user_id = userId ∧ p.match_id = matchId)
        ∨ findMatch (ensureUser s2 userId un2) matchId = none ∨ a2 < 0 ∨ b2 < 0 := by
      refine Or.inl ⟨{ user_id := userId, match_id := matchId,
                       pred_score1 := score1, pred_score2 := score2 }, ?_, rfl, rfl⟩
      rw [ensureUser_predictions, hpreds]
      exact List.mem_append_right _ (List.mem_singleton.2 rfl)
    unfold appendPrediction
    rw [if_pos hc]
  · rw [hpreds, List.filter_append, List.filter_eq_nil_iff.2 hnoB]
    simp
  · unfold getUserPrediction
    rw [hpreds, List.find?_append, List.find?_eq_none.2 hnoB]
    simp

/-- Witness for C8: user 7 already predicted 1:2 on match 3 in
`sampleStore2`; a second append is rejected and the original row
survives unchanged. -/
theorem c8_duplicate_append_witness :
    appendPrediction sampleStore2 3 7 "carol" 2 2 = Except.error "prediction_exists"
    ∧ (sampleStore2.predictions.filter fun p => p.user_id == 7 && p.match_id == 3).length = 1
    ∧ getUserPrediction sampleStore2 3 7
        = some { user_id := 7, match_id := 3, pred_score1 := 1, pred_score2 := 2 } :=
  c8_duplicate_append sampleStore sampleStore2 3 7 1 2 2 2 "bob" "carol" rfl

/-- C3 counterexample: `append_prediction` performs no `[0, 99]` range
check — an append with score 100 succeeds and the out-of-range
prediction is stored, so the ledger does not fail with `InvalidRange`
and does not defend the range invariant. -/
theorem c3_range_counterexample :
    appendPrediction sampleStore 3 7 "bob" 100 0
      = .ok { rules := none, matchRows := [sampleMatch],
              users := [{ id := 7, username := some "bob" }],
              predictions := [{ user_id := 7, match_id := 3,
                                pred_score1 := 100, pred_score2 := 0 }] }
    ∧ getUserPrediction
        { rules := none, matchRows := [sampleMatch],
          users := [{ id := 7, username := some "bob" }],
          predictions := [{ user_id := 7, match_id := 3,
                            pred_score1 := 100, pred_score2 := 0 }] } 3 7
      = some { user_id := 7, match_id := 3, pred_score1 := 100, pred_score2 := 0 } :=
  ⟨rfl, rfl⟩

/-- C3 amended: the `[0, 99]` range is enforced only at the calling
boundary — the HTTP handler rejects an out-of-range score with
`scores_out_of_range` before any ledger call — while the ledger itself
accepts and stores any pair of non-negative scores for an existing,
not-yet-predicted match. -/
theorem c3_range_amended (s : Store) (now : KyivTime) (matchId userId score1 score2 : Int)
    (un : String) (hw : isPredictionWindowOpen now = true) :
    (¬ (0 ≤ score1 ∧ score1 ≤ 99 ∧ 0 ≤ score2 ∧ score2 ≤ 99) →
      webappPrediction s now matchId score1 score2 userId un
        = (s, WebResult.err "scores_out_of_range"))
    ∧ (0 ≤ score1 → 0 ≤ score2 →
        (findMatch s matchId).isSome = true →
        (¬ ∃ p ∈ s.predictions, p.user_id = userId ∧ p.match_id = matchId) →
        (appendPrediction s matchId userId un score1 score2).isOk = true)
    ∧ (∀ s2 : Store, appendPrediction s matchId userId un score1 score2 = .ok s2 →
        getUserPrediction s2 matchId userId
          = some { user_id := userId, match_id := matchId,
                   pred_score1 := score1, pred_score2 := score2 }) := by
  refine ⟨fun hrange => ?_, fun h1 h2 hm hnd => ?_, fun s2 h => ?_⟩
  · unfold webappPrediction
    rw [if_neg (not_not_intro hw), if_pos hrange]
  · have hguard : ¬ ((∃ p ∈ (ensureUser s userId un).predictions,
        p.user_id = userId ∧ p.match_id = matchId)
        ∨ findMatch (ensureUser s userId un) matchId = none
        ∨ score1 < 0 ∨ score2 < 0) := by
      rintro (hx | hx | hx | hx)
      · exact hnd ((ensureUser_predictions s userId un) ▸ hx)
      · rw [findMatch_ensureUser] at hx
        rw [hx] at hm
        exact Bool.noConfusion hm
      · omega
      · omega
    unfold appendPrediction
    rw [if_neg hguard]
    rfl
  · obtain ⟨hpreds, hno⟩ := appendPrediction_ok_elim s s2 matchId userId score1 score2 un h
    have hnoB : ∀ p ∈ s.predictions,
        ¬ (p.user_id == userId && p.match_id == matchId) = true := by
      intro p hp hb
      rw [Bool.and_eq_true, beq_iff_eq, beq_iff_eq] at hb
      exact hno p hp hb
    unfold getUserPrediction
    rw [hpreds, List.find?_append, List.find?_eq_none.2 hnoB]
    simp

/-- Witness for C3 amended: the handler rejects 100:1 with
`scores_out_of_range`, yet a direct ledger append of 100:1 succeeds. -/
theorem c3_range_amended_witness :
    webappPrediction sampleStore { day := 0, secondsOfDay := 0 } 3 100 1 7 "bob"
      = (sampleStore, WebResult.err "scores_out_of_range")
    ∧ (appendPrediction sampleStore 3 7 "bob" 100 1).isOk = true :=
  ⟨(c3_range_amended sampleStore { day := 0, secondsOfDay := 0 } 3 7 100 1 "bob"
      (by decide)).1 (by decide),
   (c3_range_amended sampleStore { day := 0, secondsOfDay := 0 } 3 7 100 1 "bob"
      (by decide)).2.1 (by decide) (by decide) (by decide) (by decide)⟩

/-- C4 counterexample: `upsert_match` writes caller-supplied status and
scores unchecked, so it can create a `finished` match with both scores
null, violating the §3 invariant. -/
theorem c4_match_invariant_counterexample :
    upsertMatch { rules := none, matchRows := [], users := [], predictions := [] }
        5 "A" "B" "finished" none none
      = .ok ({ rules := none,
               matchRows := [{ id := 5, team1 := "A", team2 := "B",
                               score1 := none, score2 := none, status := "finished" }],
               users := [], predictions := [] },
             { id := 5, team1 := "A", team2 := "B",
               score1 := none, score2 := none, status := "finished" })
    ∧ ¬ matchInv { id := 5, team1 := "A", team2 := "B",
                   score1 := none, score2 := none, status := "finished" } :=
  ⟨rfl, by decide⟩

/-- C4 amended: `add_match` (always `scheduled`, scores null) and
`update_match_result` (always `finished` with both scores set) preserve
the invariant `status = finished ⇔ both scores non-null`; `upsert_match`
does not enforce it and can violate it. -/
theorem c4_match_invariant_amended (s s2 : Store) (m2 : Match) (team1 team2 : String)
    (matchId score1 score2 : Int)
    (h : storeMatchInv s)
    (hupd : updateMatchResult s matchId score1 score2 = some (s2, m2)) :
    storeMatchInv (addMatch s team1 team2).1 ∧ storeMatchInv s2 := by
  constructor
  · intro m hm
    rw [show (addMatch s team1 team2).1.matchRows
        = s.matchRows ++ [{ id := nextMatchId s, team1 := team1, team2 := team2,
                            score1 := none, score2 := none, status := "scheduled" }]
      from rfl] at hm
    rcases List.mem_append.1 hm with hmem | hnew
    · exact h m hmem
    · rw [List.mem_singleton.1 hnew]
      constructor
      · intro hst
        have hne : ("scheduled" : String) ≠ "finished" := by decide
        exact absurd hst hne
      · rintro ⟨hbad, _⟩
        exact absurd rfl hbad
  · unfold updateMatchResult at hupd
    split at hupd
    · exact Option.noConfusion hupd
    · rename_i m0 hfm
      rw [Option.some.injEq, Prod.mk.injEq] at hupd
      obtain ⟨hS, hM⟩ := hupd
      subst hS
      intro m hm
      have hm2 : m ∈ s.matchRows.map fun mm =>
          if mm.id == matchId then
            { m0 with score1 := some score1, score2 := some score2,
                      status := "finished" }
          else mm := hm
      rcases List.mem_map.1 hm2 with ⟨mm, hmm, heq⟩
      by_cases hid : (mm.id == matchId) = true
      · rw [if_pos hid] at heq
        rw [← heq]
        constructor
        · intro _
          exact ⟨Option.some_ne_none _, Option.some_ne_none _⟩
        · intro _
          rfl
      · rw [if_neg hid] at heq
        rw [← heq]
        exact h mm hmm

/-- Witness for C4 amended on the concrete store `sampleStore`. -/
theorem c4_match_invariant_amended_witness :
    storeMatchInv (addMatch sampleStore "X" "Y").1 ∧ storeMatchInv sampleUpdatedStore :=
  c4_match_invariant_amended sampleStore sampleUpdatedStore sampleUpdatedMatch "X" "Y" 3 2 1
    (by decide) (by decide)

/-- C5: the HTTP prediction endpoint's guard requires the stored status
to equal `"pending"`, but every status the store can hold is
`scheduled`, `live` or `finished` — `add_match` and
`update_match_result` only write those, `upsert_match` cannot flush
`"pending"` past the check constraint, and the importer rewrites the
textual `pending` to `scheduled` — so every authenticated, in-window,
in-range request naming an existing match is answered with
`match_not_available`, and no prediction can be submitted over HTTP. -/
theorem c5_pending_status_unreachable (s s2 : Store) (now : KyivTime) (m m2 : Match)
    (matchId userId score1 score2 mid2 a b : Int) (un t1 t2 : String)
    (sc1 sc2 : Option Int)
    (hstat : storeStatusInv s)
    (hw : isPredictionWindowOpen now = true)
    (hm : findMatch s matchId = some m)
    (hr : 0 ≤ score1 ∧ score1 ≤ 99 ∧ 0 ≤ score2 ∧ score2 ≤ 99)
    (hupd : updateMatchResult s matchId a b = some (s2, m2)) :
    webappPrediction s now matchId score1 score2 userId un
      = (s, WebResult.err "match_not_available")
    ∧ importedStatus "pending" = "scheduled"
    ∧ (∀ res, upsertMatch s mid2 t1 t2 "pending" sc1 sc2 ≠ Except.ok res)
    ∧ storeStatusInv (addMatch s t1 t2).1
    ∧ storeStatusInv s2 := by
  have hpend : m.status ≠ "pending" := by
    have hm2 : s.matchRows.find? (fun mm => mm.id == matchId) = some m := hm
    have hmem := List.mem_of_find?_eq_some hm2
    rcases hstat m hmem with hst | hst | hst <;> rw [hst] <;> decide
  refine ⟨?_, by decide, fun res hcontra => ?_, ?_, ?_⟩
  · unfold webappPrediction
    rw [if_neg (not_not_intro hw), if_neg (not_not_intro hr)]
    simp only [hm]
    rw [if_pos hpend]
  · have hpendBad : ¬ allowedStatus "pending" := by decide
    unfold upsertMatch at hcontra
    split at hcontra <;>
      first
        | (rw [if_neg hpendBad] at hcontra
           exact Except.noConfusion hcontra)
        | (split at hcontra
           · exact Except.noConfusion hcontra
           · exact Except.noConfusion hcontra)
  · intro mm hmm
    rw [show (addMatch s t1 t2).1.matchRows
        = s.matchRows ++ [{ id := nextMatchId s, team1 := t1, team2 := t2,
                            score1 := none, score2 := none, status := "scheduled" }]
      from rfl] at hmm
    rcases List.mem_append.1 hmm with hmem | hnew
    · exact hstat mm hmem
    · rw [List.mem_singleton.1 hnew]
      exact Or.inl rfl
  · unfold updateMatchResult at hupd
    split at hupd
    · exact Option.noConfusion hupd
    · rename_i m0 hfm
      rw [Option.some.injEq, Prod.mk.injEq] at hupd
      obtain ⟨hS, hM⟩ := hupd
      subst hS
      intro mm hmm
      have hmm2 : mm ∈ s.matchRows.map fun mx =>
          if mx.id == matchId then
            { m0 with score1 := some a, score2 := some b, status := "finished" }
          else mx := hmm
      rcases List.mem_map.1 hmm2 with ⟨mx, hmx, heq⟩
      by_cases hid : (mx.id == matchId) = true
      · rw [if_pos hid] at heq
        rw [← heq]
        exact Or.inr (Or.inr rfl)
      · rw [if_neg hid] at heq
        rw [← heq]
        exact hstat mx hmx

/-- Witness for C5 on `sampleStore`: a valid in-window request for the
scheduled match 3 is answered with `match_not_available`. -/
theorem c5_pending_status_unreachable_witness :
    webappPrediction sampleStore { day := 0, secondsOfDay := 0 } 3 1 1 7 "bob"
      = (sampleStore, WebResult.err "match_not_available") :=
  (c5_pending_status_unreachable sampleStore sampleUpdatedStore
      { day := 0, secondsOfDay := 0 } sampleMatch sampleUpdatedMatch
      3 7 1 1 9 2 1 "bob" "X" "Y" none none
      (by decide) (by decide) (by decide) (by decide) (by decide)).1

end FB
